import Mathlib

/-!
Verification development for the WhatsApp connection/session manager of
`src/lib/whatsapp.ts` (repository `gerador-ofertas`).

The TypeScript module keeps a process-wide singleton `{client, state, emitter}`.
We shallowly embed the mutable `state` record as `WState`, the events published
on the emitter as `WEvent`, and each exported operation as a pure function from
a pre-state (plus the outcomes of the underlying `whatsapp-web.js` client calls,
passed in as explicit oracle values) to a post-state together with the list of
events emitted during the call and the value returned to the caller.
-/

namespace Whatsapp

/-- `WhatsAppConnectionStatus` from the source. -/
inductive WStatus
  | idle
  | initializing
  | qr
  | ready
  | disconnected
  | error
deriving DecidableEq

/-- The mutable `WhatsAppState` record of the singleton. -/
structure WState where
  status : WStatus
  qr : Option String
  lastError : Option String
  initialized : Bool
  listenersAttached : Bool
  injectedPatched : Bool
deriving DecidableEq

/-- The `{status, qr, lastError}` snapshot returned by `getWhatsAppStatus`. -/
structure StatusSnapshot where
  status : WStatus
  qr : Option String
  lastError : Option String
deriving DecidableEq

/-- The `WhatsAppEvent` tagged union published on the emitter. -/
inductive WEvent
  | state (status : WStatus) (qr : Option String) (lastError : Option String)
  | qrEv (qr : String)
  | readyEv
  | disconnectedEv (reason : String)
  | authFailureEv (message : String)
  | messageEv (sender : String) (body : String) (id : String)
  | errorEv (message : String)
deriving DecidableEq

/-- The state built by `createSingleton` (status idle, everything cleared). -/
def createSingletonState : WState :=
  { status := .idle, qr := none, lastError := none,
    initialized := false, listenersAttached := false, injectedPatched := false }

/-- `getWhatsAppStatus`: pure snapshot of `{status, qr, lastError}`. -/
def getWhatsAppStatus (s : WState) : StatusSnapshot :=
  { status := s.status, qr := s.qr, lastError := s.lastError }

/-- The event payload built by `emitState`. -/
def emitState (s : WState) : WEvent :=
  .state s.status s.qr s.lastError

/-- `attachListenersIfNeeded`: its only effect on the state record is setting
the `listenersAttached` guard (the handler registrations themselves are
modelled by gating `handleClientEvent` on that guard). -/
def attachListenersIfNeeded (s : WState) : WState :=
  if s.listenersAttached then s else { s with listenersAttached := true }

/-! ## Chat identity resolver: digit normalization -/

/-- One pass of the `while (digits.startsWith('55') && digits.length > 13)`
loop with explicit fuel. Each iteration drops two leading characters, so
`ds.length` passes of fuel are always sufficient for the loop to reach its
exit condition. -/
def normalizeDigitsLoop : Nat → List Char → List Char
  | 0, ds => ds
  | fuel + 1, ds =>
      if ds.take 2 = ['5', '5'] ∧ ds.length > 13 then
        normalizeDigitsLoop fuel (ds.drop 2)
      else ds

/-- `normalizeDigits` from `resolveWhatsAppChatId`: strip non-digits, strip a
leading `55` while longer than 13 digits, and prepend `55` to bare 10/11-digit
national numbers. -/
def normalizeDigits (raw : String) : String :=
  let ds := raw.toList.filter Char.isDigit
  let ds := normalizeDigitsLoop ds.length ds
  let ds :=
    if ¬ ds.take 2 = ['5', '5'] ∧ (ds.length = 10 ∨ ds.length = 11) then
      '5' :: '5' :: ds
    else ds
  String.mk ds

/-! ## Underlying client events and their handlers -/

/-- An event emitted by the underlying `whatsapp-web.js` client. `ready`
carries whether the fire-and-forget `patchInjectedWWebJSIfNeeded` call it
triggers manages to set the `injectedPatched` guard (the patch is best-effort:
it can silently do nothing). -/
inductive ClientEvent
  | qr (token : String)
  | ready (patchOk : Bool)
  | auth_failure (message : String)
  | disconnected (reason : String)
  | message (sender : String) (body : String) (id : String)

/-- The handlers registered by `attachListenersIfNeeded`. A client event only
runs a handler when the listeners are attached; otherwise nothing observes it.
Returns the post-state and the events published on the emitter, in order. -/
def handleClientEvent (s : WState) : ClientEvent → WState × List WEvent
  | .qr token =>
      if s.listenersAttached then
        let s' := { s with status := .qr, qr := some token, lastError := none }
        (s', [.qrEv token, emitState s'])
      else (s, [])
  | .ready patchOk =>
      if s.listenersAttached then
        let s' := { s with status := .ready, qr := none, lastError := none,
                           injectedPatched := s.injectedPatched || patchOk }
        (s', [.readyEv, emitState s'])
      else (s, [])
  | .auth_failure message =>
      if s.listenersAttached then
        let m := if message = "" then "auth_failure" else message
        let s' := { s with status := .error, lastError := some m }
        (s', [.authFailureEv m, emitState s'])
      else (s, [])
  | .disconnected reason =>
      if s.listenersAttached then
        let s' := { s with status := .disconnected,
                           lastError := if reason = "" then none else some reason }
        (s', [.disconnectedEv reason, emitState s'])
      else (s, [])
  | .message sender body id =>
      if s.listenersAttached then (s, [.messageEv sender body id])
      else (s, [])

/-! ## reset and start -/

/-- What `client.initialize()` does when awaited inside `startWhatsApp`:
either it resolves, or it throws. A thrown `Error` carries `some message`
(`e.message`); a thrown non-`Error` value carries `none`, for which the code
substitutes the fallback message. -/
inductive InitOutcome
  | ok
  | exn (msg : Option String)

/-- Result of a `startWhatsApp` call: post-state, events emitted during the
call, the snapshot returned to the caller, and whether `client.initialize()`
was invoked. -/
structure StartResult where
  state : WState
  events : List WEvent
  ret : StatusSnapshot
  initInvoked : Bool
deriving DecidableEq

/-- `startWhatsApp`. `init` is the outcome `client.initialize()` would have if
invoked. -/
def startWhatsApp (s : WState) (init : InitOutcome) : StartResult :=
  let s := attachListenersIfNeeded s
  if s.status = .ready ∨ s.status = .initializing ∨ s.status = .qr then
    { state := s, events := [], ret := getWhatsAppStatus s, initInvoked := false }
  else
    let s1 := { s with status := .initializing, lastError := none }
    let ev1 : WEvent := .state s1.status s1.qr s1.lastError
    if s1.initialized then
      { state := s1, events := [ev1], ret := getWhatsAppStatus s1, initInvoked := false }
    else
      match init with
      | .ok =>
          let s2 := { s1 with initialized := true }
          { state := s2, events := [ev1], ret := getWhatsAppStatus s2, initInvoked := true }
      | .exn m =>
          let msg := m.getD "Falha ao inicializar WhatsApp."
          let s2 := { s1 with initialized := false, status := .error, lastError := some msg }
          { state := s2, events := [ev1, .errorEv msg, emitState s2],
            ret := getWhatsAppStatus s2, initInvoked := true }

/-- Result of a `resetWhatsApp` call. -/
structure ResetResult where
  state : WState
  events : List WEvent
  ret : StatusSnapshot
deriving DecidableEq

/-- `resetWhatsApp`. `destroyThrows` records whether the best-effort teardown
(`removeAllListeners` / `client.destroy()`) threw; the `catch {}` swallows it
either way. A fresh client is built, the whole state record is reset, the
listeners are re-attached to the new client, and a state snapshot event is
broadcast. -/
def resetWhatsApp (_s : WState) (_destroyThrows : Bool) : ResetResult :=
  let s1 : WState :=
    { status := .idle, qr := none, lastError := none,
      initialized := false, listenersAttached := false, injectedPatched := false }
  let s2 := attachListenersIfNeeded s1
  { state := s2, events := [emitState s2], ret := getWhatsAppStatus s2 }

/-! ## Action traces over the singleton -/

/-- One external stimulus to the singleton: a `startWhatsApp` call with a given
initialize outcome, a `resetWhatsApp` call with a given teardown outcome, or an
underlying client event. -/
inductive Act
  | startA (init : InitOutcome)
  | resetA (destroyThrows : Bool)
  | clientA (e : ClientEvent)

/-- Effect of one action on the singleton state. -/
def stepState (s : WState) : Act → WState
  | .startA i => (startWhatsApp s i).state
  | .resetA d => (resetWhatsApp s d).state
  | .clientA e => (handleClientEvent s e).1

/-- Run a sequence of actions from a state. -/
def runActs (s : WState) (acts : List Act) : WState :=
  acts.foldl stepState s

/-! ## Chat identity resolver -/

/-- JavaScript `String.prototype.trim`: strip leading and trailing
whitespace. Implemented on the character list so that it evaluates by
structural recursion. -/
def jsTrim (s : String) : String :=
  String.mk
    (((s.toList.dropWhile Char.isWhitespace).reverse.dropWhile
        Char.isWhitespace).reverse)

/-- JavaScript `String.prototype.toLowerCase` (ASCII range). -/
def jsToLower (s : String) : String :=
  String.mk (s.toList.map Char.toLower)

/-- JavaScript `String.prototype.includes` for a single character. -/
def containsChar (s : String) (c : Char) : Bool :=
  s.toList.any (fun x => x = c)

/-- Outcome of the `client.getNumberId(digits)` directory lookup: either it
resolves to a value whose `_serialized` coerces to the given string (possibly
empty, which the code treats as not found), or it throws. -/
inductive LookupOutcome
  | found (serialized : String)
  | threw

/-- `resolveWhatsAppChatId`. `selfWid` is the string coerced from
`client.info.wid._serialized ?? client.info.wid ?? ''`. Errors are the thrown
message strings. -/
def resolveWhatsAppChatId (selfWid : String) (lookup : LookupOutcome)
    (numberOrChatId : String) : Except String String :=
  let input := jsTrim numberOrChatId
  if input = "" then .error "Número inválido."
  else
    let inputLower := jsToLower input
    if inputLower = "me" ∨ inputLower = "self" then
      let serialized := jsTrim selfWid
      if containsChar serialized '@' then .ok serialized
      else .error "Não foi possível resolver o número do WhatsApp conectado."
    else if containsChar input '@' then .ok input
    else
      let digits := normalizeDigits input
      if digits = "" then .error "Número inválido."
      else
        match lookup with
        | .found serialized =>
            if serialized ≠ "" then .ok serialized
            else .error "Este número não está no WhatsApp."
        | .threw => .error "Este número não está no WhatsApp."

/-! ## Dispatch layer -/

/-- Case-insensitive match of the `/no lid for user/i` signature: a one-char
matcher for the start of the needle, lifted to substring search. -/
def listStartsWith : List Char → List Char → Bool
  | [], _ => true
  | _ :: _, [] => false
  | a :: as, b :: bs => a = b && listStartsWith as bs

/-- Substring occurrence test on character lists. -/
def listHasSub (needle : List Char) : List Char → Bool
  | [] => listStartsWith needle []
  | c :: cs => listStartsWith needle (c :: cs) || listHasSub needle cs

/-- `/no lid for user/i.test(msg)`. -/
def matchesNoLid (msg : String) : Bool :=
  listHasSub "no lid for user".toList (msg.toList.map Char.toLower)

/-- Outcome of the underlying `client.sendMessage` call: resolves, or throws.
A thrown `Error` carries `some message`; a thrown non-`Error` carries `none`
(the code coerces its message to `''`). -/
inductive SendOutcome
  | ok
  | exn (msg : Option String)

/-- Result of a `sendWhatsAppMessage` / `sendWhatsAppMedia` call: post-state,
events emitted, outcome surfaced to the caller (`Except.error m` models a
throw whose message is `m`), and whether `client.sendMessage` was invoked. -/
structure SendResult where
  state : WState
  events : List WEvent
  result : Except String Unit
  sendInvoked : Bool

/-- Failure classification shared by the two `catch` blocks of the dispatch
layer; `fallback` is `'Falha ao enviar mensagem.'` or `'Falha ao enviar
mídia.'`. Re-fails as the not-on-network message when the signature matches,
else propagates a non-empty message, else rethrows the original error. -/
def classifySendError (fallback : String) (emsg : Option String) : String :=
  let msg := emsg.getD ""
  if matchesNoLid msg then "Este número não está no WhatsApp."
  else if msg ≠ "" then msg
  else
    match emsg with
    | some m => m
    | none => fallback

/-- `sendWhatsAppMessage`. Oracles: `init` for the inner `startWhatsApp`,
`selfWid`/`lookup` for the resolver, `patchOk` for the best-effort injected
patch, `send` for the underlying `client.sendMessage`. -/
def sendWhatsAppMessage (s : WState) (init : InitOutcome) (selfWid : String)
    (lookup : LookupOutcome) (patchOk : Bool) (send : SendOutcome)
    (numberOrChatId : String) (message : String) : SendResult :=
  let r := startWhatsApp s init
  if r.ret.status ≠ .ready then
    { state := r.state, events := r.events,
      result := .error "WhatsApp não está conectado.", sendInvoked := false }
  else
    let text := message
    if jsTrim text = "" then
      { state := r.state, events := r.events,
        result := .error "Mensagem vazia.", sendInvoked := false }
    else
      match resolveWhatsAppChatId selfWid lookup numberOrChatId with
      | .error m =>
          { state := r.state, events := r.events,
            result := .error m, sendInvoked := false }
      | .ok _chatId =>
          let s2 := { r.state with
                      injectedPatched := r.state.injectedPatched || patchOk }
          match send with
          | .ok =>
              { state := s2, events := r.events, result := .ok (), sendInvoked := true }
          | .exn emsg =>
              { state := s2, events := r.events,
                result := .error (classifySendError "Falha ao enviar mensagem." emsg),
                sendInvoked := true }

/-- `sendWhatsAppMedia`. Same shape as `sendWhatsAppMessage` with the media
validity check in place of the empty-text check and the media fallback
message. `caption` and `sendAsDocument` only shape the payload handed to the
underlying client, so they do not appear in the result. -/
def sendWhatsAppMedia (s : WState) (init : InitOutcome) (selfWid : String)
    (lookup : LookupOutcome) (patchOk : Bool) (send : SendOutcome)
    (numberOrChatId : String) (mimeType : String) (base64 : String) : SendResult :=
  let r := startWhatsApp s init
  if r.ret.status ≠ .ready then
    { state := r.state, events := r.events,
      result := .error "WhatsApp não está conectado.", sendInvoked := false }
  else
    let mt := jsTrim mimeType
    let b64 := jsTrim base64
    if mt = "" ∨ b64 = "" then
      { state := r.state, events := r.events,
        result := .error "Mídia inválida.", sendInvoked := false }
    else
      match resolveWhatsAppChatId selfWid lookup numberOrChatId with
      | .error m =>
          { state := r.state, events := r.events,
            result := .error m, sendInvoked := false }
      | .ok _chatId =>
          let s2 := { r.state with
                      injectedPatched := r.state.injectedPatched || patchOk }
          match send with
          | .ok =>
              { state := s2, events := r.events, result := .ok (), sendInvoked := true }
          | .exn emsg =>
              { state := s2, events := r.events,
                result := .error (classifySendError "Falha ao enviar mídia." emsg),
                sendInvoked := true }

/-! ## Event broadcaster listener bookkeeping

`subscribeWhatsAppEvents` does `emitter.on('event', listener)` and returns
`() => emitter.off('event', listener)`. We model the emitter's listener array
for the `'event'` channel as a list of listener identities. `on` appends;
`off` (Node's `removeListener`) removes at most one registration of the
listener — the most recently added one — and is a no-op when the listener is
not registered. -/

/-- Remove the first occurrence of `l`, if any. -/
def removeFirstOcc (l : Nat) : List Nat → List Nat
  | [] => []
  | x :: xs => if x = l then xs else x :: removeFirstOcc l xs

/-- `emitter.on('event', l)`: append to the listener array. -/
def emitterOn (l : Nat) (ls : List Nat) : List Nat := ls ++ [l]

/-- `emitter.off('event', l)`: remove the most recently added registration of
`l`, at most one. -/
def emitterOff (l : Nat) (ls : List Nat) : List Nat :=
  (removeFirstOcc l ls.reverse).reverse

/-- `subscribeWhatsAppEvents`: registers the listener; the returned
unsubscribe closure is `emitterOff l`. -/
def subscribeWhatsAppEvents (l : Nat) (ls : List Nat) : List Nat :=
  emitterOn l ls

/-! ## Auxiliary predicates and sample states -/

/-- The statuses on which `startWhatsApp` returns immediately. -/
def noopStatus (st : WStatus) : Prop :=
  st = .ready ∨ st = .initializing ∨ st = .qr

instance (st : WStatus) : Decidable (noopStatus st) := by
  unfold noopStatus; infer_instance

/-- The statuses that can coexist with a non-null `qr` field: `qr` itself,
plus the statuses reached from it by transitions that do not clear the token
(`auth_failure`, `disconnected`, and the re-`initializing` path of
`startWhatsApp`). -/
def qrCarryStatus (st : WStatus) : Prop :=
  st = .qr ∨ st = .initializing ∨ st = .disconnected ∨ st = .error

instance (st : WStatus) : Decidable (qrCarryStatus st) := by
  unfold qrCarryStatus; infer_instance

/-- State invariant: a non-null `qr` token implies a token-carrying status. -/
def qrInv (s : WState) : Prop :=
  s.qr ≠ none → qrCarryStatus s.status

/-- Post-states of a sequence of consecutive `startWhatsApp` calls. -/
def startStates (s : WState) : List InitOutcome → List WState
  | [] => []
  | i :: is =>
      (startWhatsApp s i).state :: startStates (startWhatsApp s i).state is

/-- Number of `client.initialize()` invocations across a sequence of
consecutive `startWhatsApp` calls. -/
def startCount (s : WState) : List InitOutcome → Nat
  | [] => 0
  | i :: is =>
      (cond (startWhatsApp s i).initInvoked 1 0) +
        startCount (startWhatsApp s i).state is

/-- A sample connected singleton state. -/
def readyExample : WState :=
  { status := .ready, qr := none, lastError := none,
    initialized := true, listenersAttached := true, injectedPatched := true }

/-- A sample state after a `disconnected` client event on an initialized
session. -/
def disconnectedExample : WState :=
  { status := .disconnected, qr := none, lastError := some "NAVIGATION",
    initialized := true, listenersAttached := true, injectedPatched := false }

/-! ## Helper lemmas -/

@[simp] theorem attach_status (s : WState) :
    (attachListenersIfNeeded s).status = s.status := by
  unfold attachListenersIfNeeded; split <;> rfl

@[simp] theorem attach_qr (s : WState) :
    (attachListenersIfNeeded s).qr = s.qr := by
  unfold attachListenersIfNeeded; split <;> rfl

@[simp] theorem attach_lastError (s : WState) :
    (attachListenersIfNeeded s).lastError = s.lastError := by
  unfold attachListenersIfNeeded; split <;> rfl

@[simp] theorem attach_initialized (s : WState) :
    (attachListenersIfNeeded s).initialized = s.initialized := by
  unfold attachListenersIfNeeded; split <;> rfl

@[simp] theorem attach_injectedPatched (s : WState) :
    (attachListenersIfNeeded s).injectedPatched = s.injectedPatched := by
  unfold attachListenersIfNeeded; split <;> rfl

@[simp] theorem attach_listenersAttached (s : WState) :
    (attachListenersIfNeeded s).listenersAttached = true := by
  unfold attachListenersIfNeeded; split <;> simp_all

@[simp] theorem getWhatsAppStatus_attach (s : WState) :
    getWhatsAppStatus (attachListenersIfNeeded s) = getWhatsAppStatus s := by
  simp [getWhatsAppStatus]

/-- On a no-op status, `startWhatsApp` only (possibly) sets the
`listenersAttached` guard and reports the current snapshot. -/
theorem startWhatsApp_noop (s : WState) (i : InitOutcome) (h : noopStatus s.status) :
    startWhatsApp s i =
      { state := attachListenersIfNeeded s, events := [],
        ret := getWhatsAppStatus s, initInvoked := false } := by
  have hc : (attachListenersIfNeeded s).status = .ready ∨
      (attachListenersIfNeeded s).status = .initializing ∨
      (attachListenersIfNeeded s).status = .qr := by
    simpa [noopStatus] using h
  simp only [startWhatsApp]
  rw [if_pos hc]
  simp

/-- Consecutive `startWhatsApp` calls from a no-op status never invoke
`client.initialize()`. -/
theorem startCount_eq_zero (is : List InitOutcome) :
    ∀ s : WState, noopStatus s.status → startCount s is = 0 := by
  induction is with
  | nil => intro s _; rfl
  | cons i is ih =>
      intro s hs
      rw [startCount, startWhatsApp_noop s i hs]
      have : noopStatus (attachListenersIfNeeded s).status := by
        simpa [noopStatus] using hs
      simp [ih _ this]

/-- Every action preserves the amended qr invariant. -/
theorem qrInv_step (s : WState) (a : Act) (h : qrInv s) : qrInv (stepState s a) := by
  cases a with
  | startA i =>
      show qrInv (startWhatsApp s i).state
      by_cases hn : noopStatus s.status
      · rw [startWhatsApp_noop s i hn]
        unfold qrInv
        intro hq
        simp only [attach_qr] at hq
        simpa [attach_status] using h hq
      · have hc : ¬ ((attachListenersIfNeeded s).status = .ready ∨
            (attachListenersIfNeeded s).status = .initializing ∨
            (attachListenersIfNeeded s).status = .qr) := by
          simpa [noopStatus] using hn
        simp only [startWhatsApp]
        rw [if_neg hc]
        unfold qrInv
        intro _
        split
        · simp [qrCarryStatus]
        · cases i with
          | ok => simp [qrCarryStatus]
          | exn m => simp [qrCarryStatus]
  | resetA d =>
      show qrInv (resetWhatsApp s d).state
      unfold qrInv
      intro hq
      exact absurd rfl hq
  | clientA e =>
      cases e with
      | qr tok =>
          show qrInv (handleClientEvent s (.qr tok)).1
          simp only [handleClientEvent]
          split
          · unfold qrInv; intro _; simp [qrCarryStatus]
          · exact h
      | ready p =>
          show qrInv (handleClientEvent s (.ready p)).1
          simp only [handleClientEvent]
          split
          · unfold qrInv; intro hq; exact absurd rfl hq
          · exact h
      | auth_failure m =>
          show qrInv (handleClientEvent s (.auth_failure m)).1
          simp only [handleClientEvent]
          split
          · unfold qrInv; intro _; simp [qrCarryStatus]
          · exact h
      | disconnected rsn =>
          show qrInv (handleClientEvent s (.disconnected rsn)).1
          simp only [handleClientEvent]
          split
          · unfold qrInv; intro _; simp [qrCarryStatus]
          · exact h
      | message a b c =>
          show qrInv (handleClientEvent s (.message a b c)).1
          simp only [handleClientEvent]
          split
          · exact h
          · exact h

/-- The amended qr invariant holds along every action trace. -/
theorem qrInv_runActs (acts : List Act) :
    ∀ s : WState, qrInv s → qrInv (runActs s acts) := by
  induction acts with
  | nil => intro s hs; exact hs
  | cons a as ih => intro s hs; exact ih _ (qrInv_step s a hs)

/-! ## Claim C1 -/

/-- C1 counterexample: the claim "`qr` is non-null only when `status = qr`"
fails on the reachable trace start(); client qr; client disconnected — the
`disconnected` handler does not clear `state.qr`, so the final state holds a
non-null token while its status is `disconnected`. -/
theorem c1_counterexample :
    (runActs createSingletonState
      [Act.startA InitOutcome.ok, Act.clientA (ClientEvent.qr "tok"),
       Act.clientA (ClientEvent.disconnected "NAVIGATION")]).qr = some "tok" ∧
    (runActs createSingletonState
      [Act.startA InitOutcome.ok, Act.clientA (ClientEvent.qr "tok"),
       Act.clientA (ClientEvent.disconnected "NAVIGATION")]).status ≠ WStatus.qr := by
  decide

/-- C1 (amended): in every reachable state of the singleton, the `qr` field is
non-null only when `status` is one of `qr`, `initializing`, `disconnected`,
`error` — the transitions for `auth_failure`, `disconnected` and the
re-`initializing` path of start() carry the stale token along; only the `qr`,
`ready` and reset transitions write it. In particular `qr` is null whenever
`status` is `idle` or `ready`. -/
theorem c1_qr_nonnull_status_amended (acts : List Act)
    (h : (runActs createSingletonState acts).qr ≠ none) :
    qrCarryStatus (runActs createSingletonState acts).status :=
  qrInv_runActs acts createSingletonState (fun hq => absurd rfl hq) h

/-- Witness for the amended C1 theorem at a concrete trace. -/
theorem c1_amended_witness :
    ((runActs createSingletonState
        [Act.startA InitOutcome.ok, Act.clientA (ClientEvent.qr "tok")]).qr ≠ none) ∧
    qrCarryStatus (runActs createSingletonState
        [Act.startA InitOutcome.ok, Act.clientA (ClientEvent.qr "tok")]).status :=
  ⟨by decide, c1_qr_nonnull_status_amended _ (by decide)⟩

/-! ## Claim C2 -/

/-- C2 counterexample: on input `"5555511999998888"` (a 13-digit valid number
with `555` prepended) the repeated prefix stripping runs twice and overshoots,
producing `"511999998888"` — a 12-digit string, not of the standard prefixed
national length 13, and not starting with the domestic prefix. -/
theorem c2_counterexample :
    normalizeDigits "5555511999998888" = "511999998888" ∧
    (normalizeDigits "5555511999998888").length = 12 ∧
    (normalizeDigits "5555511999998888").length ≠ ("5511999998888" : String).length := by
  decide

/-- C2 (amended): `normalizeDigits` maps `"5511999998888"` to itself and
`"11999998888"` to `"5511999998888"` as claimed; a single duplicated prefix
`"555511999998888"` does strip down to the valid `"5511999998888"`, but the
claimed input `"5555511999998888"` strips twice to `"511999998888"`, a
12-digit string that is not of the standard prefixed national length. -/
theorem c2_normalizeDigits_amended :
    normalizeDigits "5511999998888" = "5511999998888" ∧
    normalizeDigits "11999998888" = "5511999998888" ∧
    normalizeDigits "555511999998888" = "5511999998888" ∧
    normalizeDigits "5555511999998888" = "511999998888" ∧
    (normalizeDigits "5555511999998888").length = 12 := by
  decide

/-! ## Claim C3 -/

/-- C3: a start() call on status `ready`, `initializing` or `qr` returns the
current snapshot unchanged, emits nothing, leaves the observable state
unchanged and does not invoke the underlying initialize(); consequently any
sequence of start() calls whose post-states all stay in that status set
invokes initialize() at most once. -/
theorem c3_start_idempotent :
    (∀ (s : WState) (i : InitOutcome), noopStatus s.status →
        (startWhatsApp s i).ret = getWhatsAppStatus s ∧
        (startWhatsApp s i).events = [] ∧
        (startWhatsApp s i).initInvoked = false ∧
        getWhatsAppStatus (startWhatsApp s i).state = getWhatsAppStatus s) ∧
    (∀ (s : WState) (is : List InitOutcome),
        (∀ t ∈ startStates s is, noopStatus t.status) →
        startCount s is ≤ 1) := by
  constructor
  · intro s i h
    rw [startWhatsApp_noop s i h]
    simp
  · intro s is h
    cases is with
    | nil => simp [startCount]
    | cons i is =>
        have hmem : (startWhatsApp s i).state ∈ startStates s (i :: is) := by
          rw [startStates]; exact List.mem_cons_self _ _
        have h1 : noopStatus (startWhatsApp s i).state.status := h _ hmem
        rw [startCount, startCount_eq_zero is _ h1]
        cases hb : (startWhatsApp s i).initInvoked <;> simp

/-- Witness for C3 at a ready state and a two-call sequence. -/
theorem c3_witness :
    noopStatus readyExample.status ∧
    (startWhatsApp readyExample InitOutcome.ok).ret = getWhatsAppStatus readyExample ∧
    (startWhatsApp readyExample InitOutcome.ok).initInvoked = false ∧
    (∀ t ∈ startStates readyExample [InitOutcome.ok, InitOutcome.ok],
        noopStatus t.status) ∧
    startCount readyExample [InitOutcome.ok, InitOutcome.ok] ≤ 1 :=
  ⟨by decide,
   (c3_start_idempotent.1 readyExample InitOutcome.ok (by decide)).1,
   (c3_start_idempotent.1 readyExample InitOutcome.ok (by decide)).2.2.1,
   by decide,
   c3_start_idempotent.2 readyExample [InitOutcome.ok, InitOutcome.ok] (by decide)⟩

/-! ## Claim C4 -/

/-- C4: start() on a `disconnected` or `error` status with the `initialized`
guard still set transitions to `initializing`, broadcasts exactly one state
snapshot event, does not invoke initialize(), returns the `initializing`
snapshot, and the session stays `initializing` under further start() calls
(only a client event or reset() can move it). -/
theorem c4_start_stale_guard (s : WState) (i : InitOutcome)
    (hs : s.status = WStatus.disconnected ∨ s.status = WStatus.error)
    (hi : s.initialized = true) :
    (startWhatsApp s i).state.status = WStatus.initializing ∧
    (startWhatsApp s i).events = [WEvent.state WStatus.initializing s.qr none] ∧
    (startWhatsApp s i).initInvoked = false ∧
    (startWhatsApp s i).ret =
      { status := WStatus.initializing, qr := s.qr, lastError := none } ∧
    (∀ i' : InitOutcome,
        getWhatsAppStatus (startWhatsApp (startWhatsApp s i).state i').state =
          getWhatsAppStatus (startWhatsApp s i).state) := by
  have hc : ¬ ((attachListenersIfNeeded s).status = .ready ∨
      (attachListenersIfNeeded s).status = .initializing ∨
      (attachListenersIfNeeded s).status = .qr) := by
    rcases hs with h' | h' <;> simp [attach_status, h']
  have hmain : startWhatsApp s i =
      { state := { attachListenersIfNeeded s with
                     status := .initializing, lastError := none },
        events := [WEvent.state WStatus.initializing s.qr none],
        ret := { status := WStatus.initializing, qr := s.qr, lastError := none },
        initInvoked := false } := by
    simp only [startWhatsApp]
    rw [if_neg hc]
    have hinit : ({ attachListenersIfNeeded s with
        status := WStatus.initializing, lastError := none } : WState).initialized = true := by
      simpa using hi
    rw [if_pos hinit]
    simp [getWhatsAppStatus]
  refine ⟨by rw [hmain], by rw [hmain], by rw [hmain], by rw [hmain], ?_⟩
  intro i'
  have hnoop : noopStatus (startWhatsApp s i).state.status := by
    rw [hmain]; exact Or.inr (Or.inl rfl)
  rw [startWhatsApp_noop _ i' hnoop]
  simp

/-- Witness for C4 at a disconnected-but-initialized state. -/
theorem c4_witness :
    (disconnectedExample.status = WStatus.disconnected ∨
      disconnectedExample.status = WStatus.error) ∧
    disconnectedExample.initialized = true ∧
    (startWhatsApp disconnectedExample InitOutcome.ok).state.status =
      WStatus.initializing ∧
    (startWhatsApp disconnectedExample InitOutcome.ok).initInvoked = false :=
  ⟨Or.inl rfl, rfl,
   (c4_start_stale_guard disconnectedExample InitOutcome.ok (Or.inl rfl) rfl).1,
   (c4_start_stale_guard disconnectedExample InitOutcome.ok (Or.inl rfl) rfl).2.2.1⟩

/-! ## Further helper lemmas -/

/-- Evaluation of `startWhatsApp` on a fresh (non-initialized) session whose
status admits initialization, when `client.initialize()` resolves. -/
theorem startWhatsApp_ok_fresh (s : WState)
    (hs : ¬ noopStatus s.status) (hi : s.initialized = false) :
    startWhatsApp s InitOutcome.ok =
      { state := { attachListenersIfNeeded s with
                     status := WStatus.initializing, lastError := none,
                     initialized := true },
        events := [WEvent.state WStatus.initializing s.qr none],
        ret := { status := WStatus.initializing, qr := s.qr, lastError := none },
        initInvoked := true } := by
  have hc : ¬ ((attachListenersIfNeeded s).status = .ready ∨
      (attachListenersIfNeeded s).status = .initializing ∨
      (attachListenersIfNeeded s).status = .qr) := by
    simpa [noopStatus, attach_status] using hs
  have hinit : ¬ (({ attachListenersIfNeeded s with
      status := WStatus.initializing, lastError := none } : WState).initialized = true) := by
    simpa using hi
  simp only [startWhatsApp]
  rw [if_neg hc, if_neg hinit]
  simp [getWhatsAppStatus]

/-- Evaluation of `startWhatsApp` on a fresh session when
`client.initialize()` throws. -/
theorem startWhatsApp_exn (s : WState) (em : Option String)
    (hs : ¬ noopStatus s.status) (hi : s.initialized = false) :
    startWhatsApp s (InitOutcome.exn em) =
      { state := { attachListenersIfNeeded s with
                     status := WStatus.error,
                     lastError := some (em.getD "Falha ao inicializar WhatsApp."),
                     initialized := false },
        events := [WEvent.state WStatus.initializing s.qr none,
                   WEvent.errorEv (em.getD "Falha ao inicializar WhatsApp."),
                   WEvent.state WStatus.error s.qr
                     (some (em.getD "Falha ao inicializar WhatsApp."))],
        ret := { status := WStatus.error, qr := s.qr,
                 lastError := some (em.getD "Falha ao inicializar WhatsApp.") },
        initInvoked := true } := by
  have hc : ¬ ((attachListenersIfNeeded s).status = .ready ∨
      (attachListenersIfNeeded s).status = .initializing ∨
      (attachListenersIfNeeded s).status = .qr) := by
    simpa [noopStatus, attach_status] using hs
  have hinit : ¬ (({ attachListenersIfNeeded s with
      status := WStatus.initializing, lastError := none } : WState).initialized = true) := by
    simpa using hi
  simp only [startWhatsApp]
  rw [if_neg hc, if_neg hinit]
  simp [getWhatsAppStatus, emitState]

/-- Matching send failures are re-labelled as the not-on-network message. -/
theorem classifySendError_noLid (fb m : String) (h : matchesNoLid m = true) :
    classifySendError fb (some m) = "Este número não está no WhatsApp." := by
  simp [classifySendError, h]

/-- Non-matching, non-empty send failure messages propagate verbatim. -/
theorem classifySendError_other (fb m : String) (h : matchesNoLid m = false)
    (hne : ¬ m = "") :
    classifySendError fb (some m) = m := by
  simp [classifySendError, h, hne]

/-- Removing an element that is not present is a no-op. -/
theorem removeFirstOcc_of_notMem (l : Nat) :
    ∀ xs : List Nat, l ∉ xs → removeFirstOcc l xs = xs := by
  intro xs h
  induction xs with
  | nil => rfl
  | cons x xs ih =>
      have hx : ¬ x = l := by
        intro he; exact h (by simp [he])
      rw [removeFirstOcc, if_neg hx,
        ih (fun hm => h (List.mem_cons_of_mem _ hm))]

/-! ## Claim C5 -/

/-- C5 counterexample: immediately after `resetWhatsApp` completes, the
`listenersAttached` guard is set again (listeners are re-attached to the new
client before the call returns), so the claim that all three guards are
cleared is false; the snapshot part holds. -/
theorem c5_counterexample :
    (resetWhatsApp disconnectedExample true).state.listenersAttached ≠ false ∧
    (resetWhatsApp disconnectedExample true).ret =
      { status := WStatus.idle, qr := none, lastError := none } := by
  decide

/-- C5 (amended): `resetWhatsApp` always succeeds with a result independent of
the pre-state and of whether teardown threw; afterwards the snapshot is
`{idle, null, null}`, the `initialized` and patch guards are cleared, and the
`listenersAttached` guard ends `true` because the listeners are re-attached to
the fresh client before the call returns. -/
theorem c5_reset_amended (s : WState) (d : Bool) :
    resetWhatsApp s d = resetWhatsApp createSingletonState false ∧
    (resetWhatsApp s d).ret =
      { status := WStatus.idle, qr := none, lastError := none } ∧
    getWhatsAppStatus (resetWhatsApp s d).state =
      { status := WStatus.idle, qr := none, lastError := none } ∧
    (resetWhatsApp s d).state.initialized = false ∧
    (resetWhatsApp s d).state.injectedPatched = false ∧
    (resetWhatsApp s d).state.listenersAttached = true ∧
    (resetWhatsApp s d).events = [WEvent.state WStatus.idle none none] :=
  ⟨rfl, rfl, rfl, rfl, rfl, rfl, rfl⟩

/-! ## Claim C6 -/

/-- C6: when `client.initialize()` throws during start() on a fresh session,
the call ends in status `error` with the thrown message recorded in
`lastError`, the `initialized` guard cleared, emits the initial state
broadcast followed by an `error` event and then a `state` event, returns the
error snapshot instead of throwing, and any subsequent start() re-invokes
`initialize()`. -/
theorem c6_init_failure (s : WState) (m : String)
    (hs : ¬ noopStatus s.status) (hi : s.initialized = false) :
    (startWhatsApp s (InitOutcome.exn (some m))).state.status = WStatus.error ∧
    (startWhatsApp s (InitOutcome.exn (some m))).state.lastError = some m ∧
    (startWhatsApp s (InitOutcome.exn (some m))).state.initialized = false ∧
    (startWhatsApp s (InitOutcome.exn (some m))).events =
      [WEvent.state WStatus.initializing s.qr none, WEvent.errorEv m,
       WEvent.state WStatus.error s.qr (some m)] ∧
    (startWhatsApp s (InitOutcome.exn (some m))).ret =
      { status := WStatus.error, qr := s.qr, lastError := some m } ∧
    (∀ i' : InitOutcome,
        (startWhatsApp (startWhatsApp s (InitOutcome.exn (some m))).state i').initInvoked
          = true) := by
  have h := startWhatsApp_exn s (some m) hs hi
  refine ⟨by simp [h], by simp [h], by simp [h], by simp [h], by simp [h], ?_⟩
  intro i'
  have h1 : (startWhatsApp s (InitOutcome.exn (some m))).state.status = WStatus.error := by
    rw [h]
  have h2 : (startWhatsApp s (InitOutcome.exn (some m))).state.initialized = false := by
    rw [h]
  have hs' : ¬ noopStatus (startWhatsApp s (InitOutcome.exn (some m))).state.status := by
    rw [h1]; simp [noopStatus]
  cases i' with
  | ok => rw [startWhatsApp_ok_fresh _ hs' h2]
  | exn em => rw [startWhatsApp_exn _ em hs' h2]

/-- Witness for C6 from the idle singleton with a concrete thrown message. -/
theorem c6_witness :
    (¬ noopStatus createSingletonState.status) ∧
    createSingletonState.initialized = false ∧
    (startWhatsApp createSingletonState (InitOutcome.exn (some "boom"))).state.status =
      WStatus.error ∧
    (startWhatsApp createSingletonState (InitOutcome.exn (some "boom"))).state.lastError =
      some "boom" ∧
    (startWhatsApp createSingletonState (InitOutcome.exn (some "boom"))).state.initialized =
      false :=
  ⟨by decide, rfl,
   (c6_init_failure createSingletonState "boom" (by decide) rfl).1,
   (c6_init_failure createSingletonState "boom" (by decide) rfl).2.1,
   (c6_init_failure createSingletonState "boom" (by decide) rfl).2.2.1⟩

/-! ## Claim C7 -/

/-- C7: when the status reported by the internal start() call is not `ready`,
both `sendWhatsAppMessage` and `sendWhatsAppMedia` fail with the not-connected
message and never invoke the underlying `client.sendMessage`. -/
theorem c7_send_requires_ready (s : WState) (i : InitOutcome) (w : String)
    (lk : LookupOutcome) (p : Bool) (snd : SendOutcome)
    (dest msg mt b64 : String)
    (h : (startWhatsApp s i).ret.status ≠ WStatus.ready) :
    (sendWhatsAppMessage s i w lk p snd dest msg).result =
      Except.error "WhatsApp não está conectado." ∧
    (sendWhatsAppMessage s i w lk p snd dest msg).sendInvoked = false ∧
    (sendWhatsAppMedia s i w lk p snd dest mt b64).result =
      Except.error "WhatsApp não está conectado." ∧
    (sendWhatsAppMedia s i w lk p snd dest mt b64).sendInvoked = false := by
  simp only [sendWhatsAppMessage, sendWhatsAppMedia]
  rw [if_pos h, if_pos h]
  exact ⟨rfl, rfl, rfl, rfl⟩

/-- Witness for C7: from the idle singleton, start() reports `initializing`,
so a send fails without invoking the underlying send. -/
theorem c7_witness :
    ((startWhatsApp createSingletonState InitOutcome.ok).ret.status ≠ WStatus.ready) ∧
    (sendWhatsAppMessage createSingletonState InitOutcome.ok ""
        (LookupOutcome.found "x") false SendOutcome.ok "5511999998888" "hello").result =
      Except.error "WhatsApp não está conectado." ∧
    (sendWhatsAppMessage createSingletonState InitOutcome.ok ""
        (LookupOutcome.found "x") false SendOutcome.ok "5511999998888" "hello").sendInvoked =
      false :=
  ⟨by decide,
   (c7_send_requires_ready createSingletonState InitOutcome.ok ""
      (LookupOutcome.found "x") false SendOutcome.ok "5511999998888" "hello" "" ""
      (by decide)).1,
   (c7_send_requires_ready createSingletonState InitOutcome.ok ""
      (LookupOutcome.found "x") false SendOutcome.ok "5511999998888" "hello" "" ""
      (by decide)).2.1⟩

/-! ## Claim C8 -/

/-- C8: on a ready session with valid payload and resolvable destination, a
failing underlying send whose error message matches the `no lid for user`
signature surfaces as the not-on-network message in both `sendWhatsAppMessage`
and `sendWhatsAppMedia`; any other non-empty underlying message is propagated
verbatim as the failure message. -/
theorem c8_send_error_classified (s : WState) (i : InitOutcome) (w : String)
    (lk : LookupOutcome) (p : Bool) (dest msg mt b64 cid m : String)
    (hready : s.status = WStatus.ready)
    (htext : ¬ jsTrim msg = "")
    (hmedia : ¬ (jsTrim mt = "" ∨ jsTrim b64 = ""))
    (hres : resolveWhatsAppChatId w lk dest = Except.ok cid) :
    (matchesNoLid m = true →
        (sendWhatsAppMessage s i w lk p (SendOutcome.exn (some m)) dest msg).result =
          Except.error "Este número não está no WhatsApp." ∧
        (sendWhatsAppMedia s i w lk p (SendOutcome.exn (some m)) dest mt b64).result =
          Except.error "Este número não está no WhatsApp.") ∧
    (matchesNoLid m = false → ¬ m = "" →
        (sendWhatsAppMessage s i w lk p (SendOutcome.exn (some m)) dest msg).result =
          Except.error m ∧
        (sendWhatsAppMedia s i w lk p (SendOutcome.exn (some m)) dest mt b64).result =
          Except.error m) ∧
    (sendWhatsAppMessage s i w lk p (SendOutcome.exn (some m)) dest msg).sendInvoked
      = true ∧
    (sendWhatsAppMedia s i w lk p (SendOutcome.exn (some m)) dest mt b64).sendInvoked
      = true := by
  have hstart : (startWhatsApp s i).ret.status = WStatus.ready := by
    rw [startWhatsApp_noop s i (Or.inl hready)]
    exact hready
  have hnotne : ¬ ((startWhatsApp s i).ret.status ≠ WStatus.ready) := by
    simp [hstart]
  have hM : (sendWhatsAppMessage s i w lk p (SendOutcome.exn (some m)) dest msg).result =
      Except.error (classifySendError "Falha ao enviar mensagem." (some m)) ∧
      (sendWhatsAppMessage s i w lk p (SendOutcome.exn (some m)) dest msg).sendInvoked
        = true := by
    simp only [sendWhatsAppMessage]
    rw [if_neg hnotne, if_neg htext, hres]
    exact ⟨rfl, rfl⟩
  have hD : (sendWhatsAppMedia s i w lk p (SendOutcome.exn (some m)) dest mt b64).result =
      Except.error (classifySendError "Falha ao enviar mídia." (some m)) ∧
      (sendWhatsAppMedia s i w lk p (SendOutcome.exn (some m)) dest mt b64).sendInvoked
        = true := by
    simp only [sendWhatsAppMedia]
    rw [if_neg hnotne, if_neg hmedia, hres]
    exact ⟨rfl, rfl⟩
  refine ⟨fun hm => ⟨?_, ?_⟩, fun hm hne => ⟨?_, ?_⟩, hM.2, hD.2⟩
  · rw [hM.1, classifySendError_noLid _ _ hm]
  · rw [hD.1, classifySendError_noLid _ _ hm]
  · rw [hM.1, classifySendError_other _ _ hm hne]
  · rw [hD.1, classifySendError_other _ _ hm hne]

/-- Witness for C8 on a ready session, a pre-qualified destination and a
matching underlying failure. -/
theorem c8_witness :
    readyExample.status = WStatus.ready ∧
    matchesNoLid "No LID for user" = true ∧
    (sendWhatsAppMessage readyExample InitOutcome.ok "" (LookupOutcome.found "y") false
        (SendOutcome.exn (some "No LID for user")) "x@c.us" "hi").result =
      Except.error "Este número não está no WhatsApp." ∧
    (sendWhatsAppMedia readyExample InitOutcome.ok "" (LookupOutcome.found "y") false
        (SendOutcome.exn (some "No LID for user")) "x@c.us" "application/pdf" "QUJD").result =
      Except.error "Este número não está no WhatsApp." :=
  ⟨rfl, by decide,
   ((c8_send_error_classified readyExample InitOutcome.ok "" (LookupOutcome.found "y")
      false "x@c.us" "hi" "application/pdf" "QUJD" "x@c.us" "No LID for user"
      rfl (by decide) (by decide) (by rfl)).1 (by decide)).1,
   ((c8_send_error_classified readyExample InitOutcome.ok "" (LookupOutcome.found "y")
      false "x@c.us" "hi" "application/pdf" "QUJD" "x@c.us" "No LID for user"
      rfl (by decide) (by decide) (by rfl)).1 (by decide)).2⟩

/-! ## Claim C9 -/

/-- C9 counterexample: the idle-to-initializing transition of start()
broadcasts exactly one event, the `state` snapshot, with no preceding typed
event — so the claimed typed-event-then-state ordering does not hold for that
transition. -/
theorem c9_counterexample :
    (startWhatsApp createSingletonState InitOutcome.ok).events =
      [WEvent.state WStatus.initializing none none] ∧
    (startWhatsApp createSingletonState InitOutcome.ok).events.length = 1 := by
  decide

/-- C9 (amended): the qr, ready, auth_failure and disconnected client handlers
and the initialization-failure path each publish their typed event immediately
followed by a full `state` snapshot event; the idle-to-initializing transition
of start() instead publishes only the `state` snapshot event, with no typed
event. -/
theorem c9_typed_then_state_amended :
    (∀ (s : WState) (tok : String), s.listenersAttached = true →
        (handleClientEvent s (ClientEvent.qr tok)).2 =
          [WEvent.qrEv tok, WEvent.state WStatus.qr (some tok) none]) ∧
    (∀ (s : WState) (p : Bool), s.listenersAttached = true →
        (handleClientEvent s (ClientEvent.ready p)).2 =
          [WEvent.readyEv, WEvent.state WStatus.ready none none]) ∧
    (∀ (s : WState) (m : String), s.listenersAttached = true → ¬ m = "" →
        (handleClientEvent s (ClientEvent.auth_failure m)).2 =
          [WEvent.authFailureEv m, WEvent.state WStatus.error s.qr (some m)]) ∧
    (∀ (s : WState) (rsn : String), s.listenersAttached = true → ¬ rsn = "" →
        (handleClientEvent s (ClientEvent.disconnected rsn)).2 =
          [WEvent.disconnectedEv rsn,
           WEvent.state WStatus.disconnected s.qr (some rsn)]) ∧
    (∀ (s : WState) (m : String), ¬ noopStatus s.status → s.initialized = false →
        (startWhatsApp s (InitOutcome.exn (some m))).events =
          [WEvent.state WStatus.initializing s.qr none, WEvent.errorEv m,
           WEvent.state WStatus.error s.qr (some m)]) ∧
    (∀ s : WState, ¬ noopStatus s.status → s.initialized = false →
        (startWhatsApp s InitOutcome.ok).events =
          [WEvent.state WStatus.initializing s.qr none]) := by
  refine ⟨?_, ?_, ?_, ?_, ?_, ?_⟩
  · intro s tok h
    simp only [handleClientEvent]
    rw [if_pos h]
    simp [emitState]
  · intro s p h
    simp only [handleClientEvent]
    rw [if_pos h]
    simp [emitState]
  · intro s m h hm
    simp only [handleClientEvent]
    rw [if_pos h]
    simp [emitState, hm]
  · intro s rsn h hr
    simp only [handleClientEvent]
    rw [if_pos h]
    simp [emitState, hr]
  · intro s m hs hi
    simp [startWhatsApp_exn s (some m) hs hi]
  · intro s hs hi
    simp [startWhatsApp_ok_fresh s hs hi]

/-- Witness for the amended C9 theorem: a qr client event on an attached
session. -/
theorem c9_witness :
    readyExample.listenersAttached = true ∧
    (handleClientEvent readyExample (ClientEvent.qr "t")).2 =
      [WEvent.qrEv "t", WEvent.state WStatus.qr (some "t") none] :=
  ⟨rfl, c9_typed_then_state_amended.1 readyExample "t" rfl⟩

/-! ## Claim C10 -/

/-- C10 counterexample: subscribing the same listener twice and calling one
returned unsubscribe closure removes only the most recent registration — the
listener is still registered and keeps receiving events — and calling the same
closure again removes the second registration, changing the listener set
again, so the second call is not an idempotent no-op. -/
theorem c10_counterexample :
    emitterOff 7 (subscribeWhatsAppEvents 7 (subscribeWhatsAppEvents 7 [])) = [7] ∧
    7 ∈ emitterOff 7 (subscribeWhatsAppEvents 7 (subscribeWhatsAppEvents 7 [])) ∧
    emitterOff 7 (emitterOff 7 (subscribeWhatsAppEvents 7 (subscribeWhatsAppEvents 7 [])))
      ≠ emitterOff 7 (subscribeWhatsAppEvents 7 (subscribeWhatsAppEvents 7 [])) := by
  decide

/-- C10 (amended): for a listener not currently registered,
`subscribeWhatsAppEvents` registers it for subsequent deliveries; the
unsubscribe closure removes exactly that registration, and calling it again on
the resulting listener set is a no-op. Duplicate registrations of one listener
require one unsubscribe call per registration. -/
theorem c10_subscribe_amended (l : Nat) (ls : List Nat) (h : l ∉ ls) :
    l ∈ subscribeWhatsAppEvents l ls ∧
    emitterOff l (subscribeWhatsAppEvents l ls) = ls ∧
    emitterOff l ls = ls := by
  refine ⟨?_, ?_, ?_⟩
  · simp [subscribeWhatsAppEvents, emitterOn]
  · show (removeFirstOcc l ((ls ++ [l]).reverse)).reverse = ls
    rw [List.reverse_append]
    simp [removeFirstOcc]
  · show (removeFirstOcc l ls.reverse).reverse = ls
    rw [removeFirstOcc_of_notMem l ls.reverse (by simpa using h),
      List.reverse_reverse]

/-- Witness for the amended C10 theorem at a concrete listener set. -/
theorem c10_witness :
    (3 ∉ [1, 2]) ∧
    3 ∈ subscribeWhatsAppEvents 3 [1, 2] ∧
    emitterOff 3 (subscribeWhatsAppEvents 3 [1, 2]) = [1, 2] ∧
    emitterOff 3 [1, 2] = [1, 2] :=
  ⟨by decide,
   (c10_subscribe_amended 3 [1, 2] (by decide)).1,
   (c10_subscribe_amended 3 [1, 2] (by decide)).2.1,
   (c10_subscribe_amended 3 [1, 2] (by decide)).2.2⟩

end Whatsapp
